import Mathlib

/-!
Verification of the jemalloc-ctl control layer.

The crate in src/ is a typed wrapper over the control interface of an
external allocator.  The wrapper functions of src/lib.rs, src/stats.rs and
src/thread.rs are translated here directly.  The external interface itself
(the name-based call, the path-based call and the name-to-path resolution
call) is not part of the repository; it is modelled from the boundary
protocol of the spec, with each such definition marked
`Modelled from the spec`.  Machine values are modelled as Nat; byte sizes
are carried explicitly, mirroring the size_of based length fields of the
source.  Debug assertions of the source (debug_assert_eq) are modelled by a
`debug` flag: when it is set a failed assertion aborts the run.
-/

namespace JeCtl

/-- Os error code reported by the modelled interface for an unknown name. -/
def ENOENT : Nat := 2

/-- Os error code reported by the modelled interface for a buffer length that
does not match the declared length of a control point. -/
def EINVAL : Nat := 22

/-- Error values of the wrapper layer, mirroring std io errors as used in
src/lib.rs: either a raw os error code, or the InvalidData error built in
get_str when the pointed-to bytes are not valid UTF-8. -/
inductive JeError where
  | os : Nat → JeError
  | invalidData : JeError
deriving DecidableEq, Repr

/-- The NotFound condition of the spec: the os error with code ENOENT. -/
def notFoundErr : JeError := .os ENOENT

/-- The SizeMismatch condition of the spec: the os error with code EINVAL,
reported by the interface when a buffer length differs from the declared
length of the control point. -/
def sizeMismatchErr : JeError := .os EINVAL

/-- Outcome of a wrapper call: a value, an error returned to the caller, or
an aborted debug assertion. -/
inductive RunResult (α : Type) where
  | ok : α → RunResult α
  | err : JeError → RunResult α
  | panicked : RunResult α
deriving DecidableEq, Repr

/-- Map over the success value of a RunResult, mirroring Result map in the
source. -/
def mapRR {α β : Type} (f : α → β) : RunResult α → RunResult β
  | .ok a => .ok (f a)
  | .err e => .err e
  | .panicked => .panicked

/-- Modelled from the spec: the behavior class of a control point.  A plain
point stores the written value; the epoch point bumps its counter by one on
any nonzero write and ignores zero writes. -/
inductive PointKind where
  | plain
  | epoch
deriving DecidableEq, Repr

/-- Modelled from the spec: one control point of the external interface,
with its resolved numeric path, declared byte length, current value and
behavior class. -/
structure CtlPoint where
  path : List Nat
  vlen : Nat
  value : Nat
  kind : PointKind
deriving DecidableEq, Repr

/-- Modelled from the spec: the state of the external control interface, a
table of named control points plus interface-owned memory holding the bytes
that string-valued points refer to. -/
structure Interface where
  points : List (String × CtlPoint)
  mem : List Nat
deriving DecidableEq, Repr

/-- Look up a control point by name in the modelled table; the first entry
carrying the name wins. -/
def plookup (n : String) : List (String × CtlPoint) → Option CtlPoint
  | [] => none
  | q :: t => if q.1 = n then some q.2 else plookup n t

/-- Look up an entry by its resolved numeric path; the first entry carrying
the path wins. -/
def pfind (p : List Nat) : List (String × CtlPoint) → Option (String × CtlPoint)
  | [] => none
  | q :: t => if q.2.path = p then some q else pfind p t

/-- Look up a control point by its resolved numeric path. -/
def Interface.findPath (st : Interface) (p : List Nat) : Option (String × CtlPoint) :=
  pfind p st.points

/-- Store a new value in the named control point. -/
def Interface.setValue (st : Interface) (n : String) (v : Nat) : Interface :=
  { st with points :=
      st.points.map (fun q => if q.1 = n then (q.1, { q.2 with value := v }) else q) }

/-- Result of one modelled control call: the status, the contents of the
output buffer after the call, the reported length, and the successor state
of the interface. -/
structure CallResult where
  status : Nat
  oldOut : Nat
  lenOut : Nat
  state : Interface
deriving DecidableEq, Repr

/-- Modelled from the spec: the effect of one control call on a located
point.  A length mismatch blocks the call entirely with EINVAL, leaving the
output buffer and the state untouched.  Otherwise the output buffer receives
the value held before the call; a write stores the new value for a plain
point, and bumps the counter by one for the epoch point when the written
value is nonzero. -/
def Interface.call (st : Interface) (n : String) (pt : CtlPoint)
    (oldBuf oldLen : Nat) (newBuf : Option (Nat × Nat)) : CallResult :=
  if oldLen = pt.vlen then
    match newBuf with
    | none => ⟨0, pt.value, pt.vlen, st⟩
    | some (nv, nl) =>
      if nl = pt.vlen then
        match pt.kind with
        | .plain => ⟨0, pt.value, pt.vlen, st.setValue n nv⟩
        | .epoch =>
          if nv = 0 then ⟨0, pt.value, pt.vlen, st⟩
          else ⟨0, pt.value, pt.vlen, st.setValue n (pt.value + 1)⟩
      else ⟨EINVAL, oldBuf, oldLen, st⟩
  else ⟨EINVAL, oldBuf, oldLen, st⟩

/-- Modelled from the spec: the name-based control call.  An unknown name
fails with ENOENT and changes nothing. -/
def mallctl (st : Interface) (name : String) (oldBuf oldLen : Nat)
    (newBuf : Option (Nat × Nat)) : CallResult :=
  match plookup name st.points with
  | none => ⟨ENOENT, oldBuf, oldLen, st⟩
  | some pt => st.call name pt oldBuf oldLen newBuf

/-- Modelled from the spec: the path-based control call, identical
semantics keyed by a previously resolved numeric path. -/
def mallctlbymib (st : Interface) (mib : List Nat) (oldBuf oldLen : Nat)
    (newBuf : Option (Nat × Nat)) : CallResult :=
  match st.findPath mib with
  | none => ⟨ENOENT, oldBuf, oldLen, st⟩
  | some q => st.call q.1 q.2 oldBuf oldLen newBuf

/-- Result of the modelled resolution call: the status, the contents of the
path buffer after the call, the reported length, and the successor state. -/
structure MibResult where
  status : Nat
  buf : List Nat
  lenOut : Nat
  state : Interface
deriving DecidableEq, Repr

/-- Modelled from the spec: the name-to-path resolution call.  The
interface writes as many path entries as fit into the caller buffer, leaves
the rest of the buffer untouched, and reports the full path length. -/
def mallctlnametomib (st : Interface) (name : String) (buf : List Nat) : MibResult :=
  match plookup name st.points with
  | none => ⟨ENOENT, buf, buf.length, st⟩
  | some pt => ⟨0, pt.path.take buf.length ++ buf.drop pt.path.length, pt.path.length, st⟩

/-- Translation of cvt in src/lib.rs: a zero status is success, any nonzero
status becomes a raw os error. -/
def cvt (ret : Nat) : Except JeError Unit :=
  if ret = 0 then .ok () else .error (.os ret)

/-- Translation of name_to_mib in src/lib.rs: call the resolution with the
buffer capacity as the length, convert the status with cvt, and compare the
buffer capacity with the reported length only as a debug assertion. -/
def name_to_mib (debug : Bool) (st : Interface) (name : String) (mib : List Nat) :
    RunResult (List Nat) × Interface :=
  let r := mallctlnametomib st name mib
  match cvt r.status with
  | .error e => (.err e, r.state)
  | .ok _ =>
    if debug ∧ mib.length ≠ r.lenOut then (.panicked, r.state) else (.ok r.buf, r.state)

/-- Translation of get of src/lib.rs: a single read of size bytes into an
output buffer whose prior contents are the uninitialized value uninit. -/
def get (debug : Bool) (st : Interface) (name : String) (size : Nat) (uninit : Nat) :
    RunResult Nat × Interface :=
  let r := mallctl st name uninit size none
  match cvt r.status with
  | .error e => (.err e, r.state)
  | .ok _ =>
    if debug ∧ r.lenOut ≠ size then (.panicked, r.state) else (.ok r.oldOut, r.state)

/-- Translation of get_mib of src/lib.rs. -/
def get_mib (debug : Bool) (st : Interface) (mib : List Nat) (size : Nat) (uninit : Nat) :
    RunResult Nat × Interface :=
  let r := mallctlbymib st mib uninit size none
  match cvt r.status with
  | .error e => (.err e, r.state)
  | .ok _ =>
    if debug ∧ r.lenOut ≠ size then (.panicked, r.state) else (.ok r.oldOut, r.state)

/-- Translation of get_set of src/lib.rs: one call that submits value as
both the input buffer and the output buffer, so the returned value is the
one the point held before the write. -/
def get_set (debug : Bool) (st : Interface) (name : String) (size : Nat) (value : Nat) :
    RunResult Nat × Interface :=
  let r := mallctl st name value size (some (value, size))
  match cvt r.status with
  | .error e => (.err e, r.state)
  | .ok _ =>
    if debug ∧ r.lenOut ≠ size then (.panicked, r.state) else (.ok r.oldOut, r.state)

/-- Translation of get_set_mib of src/lib.rs. -/
def get_set_mib (debug : Bool) (st : Interface) (mib : List Nat) (size : Nat) (value : Nat) :
    RunResult Nat × Interface :=
  let r := mallctlbymib st mib value size (some (value, size))
  match cvt r.status with
  | .error e => (.err e, r.state)
  | .ok _ =>
    if debug ∧ r.lenOut ≠ size then (.panicked, r.state) else (.ok r.oldOut, r.state)

/-- Modelled from the semantics of CStr from_ptr: the bytes stored from the
given address up to, and not including, the first NUL byte. -/
def cstrBytes (mem : List Nat) (addr : Nat) : List Nat :=
  (mem.drop addr).takeWhile (fun b => b != 0)

/-- Acceptance automaton for UTF-8, modelled from the byte ranges of the
Rust standard library validator behind str from_utf8.  The argument need
counts outstanding continuation bytes, lo and hi bound the next byte. -/
def utf8Go : List Nat → Nat → Nat → Nat → Bool
  | [], need, _, _ => need == 0
  | b :: rest, 0, _, _ =>
    if b ≤ 0x7F then utf8Go rest 0 0x80 0xBF
    else if 0xC2 ≤ b ∧ b ≤ 0xDF then utf8Go rest 1 0x80 0xBF
    else if b = 0xE0 then utf8Go rest 2 0xA0 0xBF
    else if (0xE1 ≤ b ∧ b ≤ 0xEC) ∨ b = 0xEE ∨ b = 0xEF then utf8Go rest 2 0x80 0xBF
    else if b = 0xED then utf8Go rest 2 0x80 0x9F
    else if b = 0xF0 then utf8Go rest 3 0x90 0xBF
    else if 0xF1 ≤ b ∧ b ≤ 0xF3 then utf8Go rest 3 0x80 0xBF
    else if b = 0xF4 then utf8Go rest 3 0x80 0x8F
    else false
  | b :: rest, need + 1, lo, hi =>
    if lo ≤ b ∧ b ≤ hi then utf8Go rest need 0x80 0xBF else false

/-- UTF-8 validity of a byte sequence, as checked by str from_utf8. -/
def utf8Valid (l : List Nat) : Bool := utf8Go l 0 0x80 0xBF

/-- Byte size of a pointer on the modelled target. -/
def ptrSize : Nat := 8

/-- Byte size of u64 on the modelled target. -/
def u64Size : Nat := 8

/-- Byte size of usize on the modelled target. -/
def usizeSize : Nat := 8

/-- Translation of get_str of src/lib.rs: read one pointer-sized value,
view the NUL-terminated bytes it points to inside interface-owned memory,
and check them for UTF-8 validity.  The success value is the address of the
borrowed text; invalid bytes give the InvalidData error. -/
def get_str (debug : Bool) (st : Interface) (name : String) (uninit : Nat) :
    RunResult Nat × Interface :=
  match get debug st name ptrSize uninit with
  | (.ok p, st2) =>
    if utf8Valid (cstrBytes st2.mem p) then (.ok p, st2) else (.err .invalidData, st2)
  | (.err e, st2) => (.err e, st2)
  | (.panicked, st2) => (.panicked, st2)

/-- Translation of get_str_mib of src/lib.rs. -/
def get_str_mib (debug : Bool) (st : Interface) (mib : List Nat) (uninit : Nat) :
    RunResult Nat × Interface :=
  match get_mib debug st mib ptrSize uninit with
  | (.ok p, st2) =>
    if utf8Valid (cstrBytes st2.mem p) then (.ok p, st2) else (.err .invalidData, st2)
  | (.err e, st2) => (.err e, st2)
  | (.panicked, st2) => (.panicked, st2)

/-- Translation of the VERSION name constant of src/lib.rs. -/
def VERSION : String := "version"

/-- Translation of the EPOCH name constant of src/lib.rs. -/
def EPOCH : String := "epoch"

/-- Translation of the ALLOCATED name constant of src/stats.rs. -/
def ALLOCATED : String := "stats.allocated"

/-- Translation of the ALLOCATEDP name constant of src/thread.rs. -/
def ALLOCATEDP : String := "thread.allocatedp"

/-- Translation of the version function of src/lib.rs. -/
def version (debug : Bool) (st : Interface) (uninit : Nat) : RunResult Nat × Interface :=
  get_str debug st VERSION uninit

/-- Translation of the Version type of src/lib.rs, holding a resolved path
of capacity one. -/
structure Version where
  mib : List Nat
deriving DecidableEq, Repr

/-- Translation of Version new: resolve VERSION into a one-entry buffer. -/
def Version.new (debug : Bool) (st : Interface) : RunResult Version × Interface :=
  let r := name_to_mib debug st VERSION (List.replicate 1 0)
  (mapRR Version.mk r.1, r.2)

/-- Translation of Version get. -/
def Version.get (v : Version) (debug : Bool) (st : Interface) (uninit : Nat) :
    RunResult Nat × Interface :=
  get_str_mib debug st v.mib uninit

/-- Translation of the epoch function of src/lib.rs: a get_set of a u64
with input value one against the EPOCH name. -/
def epoch (debug : Bool) (st : Interface) : RunResult Nat × Interface :=
  get_set debug st EPOCH u64Size 1

/-- Translation of the Epoch type of src/lib.rs, holding a resolved path of
capacity one. -/
structure Epoch where
  mib : List Nat
deriving DecidableEq, Repr

/-- Translation of Epoch new: resolve EPOCH into a one-entry buffer. -/
def Epoch.new (debug : Bool) (st : Interface) : RunResult Epoch × Interface :=
  let r := name_to_mib debug st EPOCH (List.replicate 1 0)
  (mapRR Epoch.mk r.1, r.2)

/-- Translation of Epoch advance: a get_set_mib of a u64 with input value
one against the resolved path. -/
def Epoch.advance (e : Epoch) (debug : Bool) (st : Interface) : RunResult Nat × Interface :=
  get_set_mib debug st e.mib u64Size 1

/-- Translation of the stats allocated function of src/stats.rs. -/
def stats.allocated (debug : Bool) (st : Interface) (uninit : Nat) :
    RunResult Nat × Interface :=
  get debug st ALLOCATED usizeSize uninit

/-- Translation of the stats Allocated type of src/stats.rs, holding a
resolved path of capacity two. -/
structure stats.Allocated where
  mib : List Nat
deriving DecidableEq, Repr

/-- Translation of stats Allocated new: resolve ALLOCATED into a two-entry
buffer. -/
def stats.Allocated.new (debug : Bool) (st : Interface) :
    RunResult stats.Allocated × Interface :=
  let r := name_to_mib debug st ALLOCATED (List.replicate 2 0)
  (mapRR stats.Allocated.mk r.1, r.2)

/-- Translation of stats Allocated get. -/
def stats.Allocated.get (a : stats.Allocated) (debug : Bool) (st : Interface)
    (uninit : Nat) : RunResult Nat × Interface :=
  get_mib debug st a.mib usizeSize uninit

/-- Translation of the ThreadLocal type of src/thread.rs: a handle holding
the raw address of a per-thread cell owned by the interface. -/
structure thread.ThreadLocal where
  addr : Nat
deriving DecidableEq, Repr

/-- Translation of ThreadLocal get: a direct load of the pointed-to cell
from interface-owned memory, with no further protocol call. -/
def thread.ThreadLocal.get (h : thread.ThreadLocal) (mem : List Nat) : Nat :=
  mem.getD h.addr 0

/-- Translation of the thread allocatedp function of src/thread.rs: a
pointer-sized read whose value is wrapped in a ThreadLocal handle. -/
def thread.allocatedp (debug : Bool) (st : Interface) (uninit : Nat) :
    RunResult thread.ThreadLocal × Interface :=
  let r := get debug st ALLOCATEDP ptrSize uninit
  (mapRR thread.ThreadLocal.mk r.1, r.2)

/-- Translation of the thread AllocatedP type of src/thread.rs, holding a
resolved path of capacity two. -/
structure thread.AllocatedP where
  mib : List Nat
deriving DecidableEq, Repr

/-- Translation of thread AllocatedP new: resolve ALLOCATEDP into a
two-entry buffer. -/
def thread.AllocatedP.new (debug : Bool) (st : Interface) :
    RunResult thread.AllocatedP × Interface :=
  let r := name_to_mib debug st ALLOCATEDP (List.replicate 2 0)
  (mapRR thread.AllocatedP.mk r.1, r.2)

/-- Translation of thread AllocatedP get. -/
def thread.AllocatedP.get (a : thread.AllocatedP) (debug : Bool) (st : Interface)
    (uninit : Nat) : RunResult thread.ThreadLocal × Interface :=
  let r := get_mib debug st a.mib ptrSize uninit
  (mapRR thread.ThreadLocal.mk r.1, r.2)

/-- Modelled from the Rust auto trait rules: the shapes of the types that
make up the ThreadLocal handle.  struct1 is a one-field struct carrying no
manual Send or Sync implementation. -/
inductive RustTy where
  | u64ty : RustTy
  | constPtr : RustTy → RustTy
  | struct1 : RustTy → RustTy
deriving DecidableEq, Repr

/-- Modelled from the Rust auto trait rules: a raw pointer is never Send; a
struct without manual implementations is Send exactly when its field is. -/
def isSend : RustTy → Bool
  | .u64ty => true
  | .constPtr _ => false
  | .struct1 f => isSend f

/-- Modelled from the Rust auto trait rules: a raw pointer is never Sync; a
struct without manual implementations is Sync exactly when its field is. -/
def isSync : RustTy → Bool
  | .u64ty => true
  | .constPtr _ => false
  | .struct1 f => isSync f

/-- The shape of the ThreadLocal type of src/thread.rs: a one-field struct
holding a const raw pointer to the value type. -/
def ThreadLocalTy (t : RustTy) : RustTy := .struct1 (.constPtr t)

/-- A small concrete interface state used to instantiate the theorems: a
version string point whose value addresses the text at the start of memory,
the epoch counter, two plain statistics points and a one-byte tunable. -/
def wSt : Interface :=
  ⟨[("version", ⟨[0], 8, 0, .plain⟩),
    ("epoch", ⟨[1], 8, 7, .epoch⟩),
    ("stats.allocated", ⟨[2, 5], 8, 1000, .plain⟩),
    ("thread.allocatedp", ⟨[3, 0], 8, 3, .plain⟩),
    ("opt.junk", ⟨[4, 2], 1, 0, .plain⟩)],
   [104, 105, 0, 255, 0]⟩

/-- A concrete state whose single point has a path of depth one, so that
resolving it into a two-entry buffer reports a mismatching length. -/
def cexSt : Interface := ⟨[("a", ⟨[7], 8, 0, .plain⟩)], []⟩

/-- A concrete state holding only the epoch point, with counter ten. -/
def cexEpochSt : Interface := ⟨[("epoch", ⟨[1], 8, 10, .epoch⟩)], []⟩

/-- The resolution call never changes the interface state. -/
theorem mallctlnametomib_state (st : Interface) (n : String) (buf : List Nat) :
    (mallctlnametomib st n buf).state = st := by
  cases h : plookup n st.points <;> simp [mallctlnametomib, h]

/-- The wrapper name_to_mib never changes the interface state. -/
theorem name_to_mib_state (debug : Bool) (st : Interface) (n : String) (buf : List Nat) :
    (name_to_mib debug st n buf).2 = st := by
  have h := mallctlnametomib_state st n buf
  simp only [name_to_mib]
  split
  · simpa using h
  · split <;> simpa using h

/-- Resolution of a known name whose path exactly fills the buffer returns
the path and changes nothing, in debug builds as well. -/
theorem resolve_ok (debug : Bool) (st : Interface) (name : String) (buf : List Nat)
    (pt : CtlPoint) (h1 : plookup name st.points = some pt)
    (h2 : pt.path.length = buf.length) :
    name_to_mib debug st name buf = (.ok pt.path, st) := by
  simp only [name_to_mib, mallctlnametomib, h1]
  rw [h2, List.take_of_length_le (le_of_eq h2), List.drop_length]
  simp [cvt]

/-- A name-based read of a point whose declared length matches the requested
size returns its value and changes nothing. -/
theorem get_ok (debug : Bool) (st : Interface) (name : String) (size uninit : Nat)
    (pt : CtlPoint) (h1 : plookup name st.points = some pt) (h2 : pt.vlen = size) :
    get debug st name size uninit = (.ok pt.value, st) := by
  subst h2
  simp [get, mallctl, Interface.call, h1, cvt]

/-- A path-based read of a point whose declared length matches the requested
size returns its value and changes nothing. -/
theorem get_mib_ok (debug : Bool) (st : Interface) (mib : List Nat) (size uninit : Nat)
    (m : String) (pt : CtlPoint) (h1 : st.findPath mib = some (m, pt))
    (h2 : pt.vlen = size) :
    get_mib debug st mib size uninit = (.ok pt.value, st) := by
  subst h2
  simp [get_mib, mallctlbymib, Interface.call, h1, cvt]

/-- A name-based get_set on a plain point returns the previous value and
stores the written one. -/
theorem get_set_plain_ok (debug : Bool) (st : Interface) (name : String)
    (size v : Nat) (pt : CtlPoint) (h1 : plookup name st.points = some pt)
    (h2 : pt.kind = .plain) (h3 : pt.vlen = size) :
    get_set debug st name size v = (.ok pt.value, st.setValue name v) := by
  subst h3
  simp [get_set, mallctl, Interface.call, h1, h2, cvt]

/-- A name-based get_set of a nonzero value on the epoch point returns the
previous counter and stores its successor. -/
theorem get_set_epoch_ok (debug : Bool) (st : Interface) (name : String)
    (size v : Nat) (pt : CtlPoint) (h1 : plookup name st.points = some pt)
    (h2 : pt.kind = .epoch) (h3 : pt.vlen = size) (h4 : v ≠ 0) :
    get_set debug st name size v = (.ok pt.value, st.setValue name (pt.value + 1)) := by
  subst h3
  simp [get_set, mallctl, Interface.call, h1, h2, h4, cvt]

/-- A path-based get_set on a plain point returns the previous value and
stores the written one. -/
theorem get_set_mib_plain_ok (debug : Bool) (st : Interface) (mib : List Nat)
    (size v : Nat) (m : String) (pt : CtlPoint) (h1 : st.findPath mib = some (m, pt))
    (h2 : pt.kind = .plain) (h3 : pt.vlen = size) :
    get_set_mib debug st mib size v = (.ok pt.value, st.setValue m v) := by
  subst h3
  simp [get_set_mib, mallctlbymib, Interface.call, h1, h2, cvt]

/-- A path-based get_set of a nonzero value on the epoch point returns the
previous counter and stores its successor. -/
theorem get_set_mib_epoch_ok (debug : Bool) (st : Interface) (mib : List Nat)
    (size v : Nat) (m : String) (pt : CtlPoint) (h1 : st.findPath mib = some (m, pt))
    (h2 : pt.kind = .epoch) (h3 : pt.vlen = size) (h4 : v ≠ 0) :
    get_set_mib debug st mib size v = (.ok pt.value, st.setValue m (pt.value + 1)) := by
  subst h3
  simp [get_set_mib, mallctlbymib, Interface.call, h1, h2, h4, cvt]

/-- Name lookup after setValue: the stored point is updated in place, all
other points are untouched. -/
theorem plookup_setValue (st : Interface) (m : String) (v : Nat) (n : String) :
    plookup n (st.setValue m v).points
      = (plookup n st.points).map (fun pt => if n = m then { pt with value := v } else pt) := by
  show plookup n (st.points.map _) = _
  induction st.points with
  | nil => rfl
  | cons hd tl ih =>
    obtain ⟨k, q⟩ := hd
    by_cases hkm : k = m
    · subst hkm
      by_cases hnk : n = k
      · subst hnk
        simp [plookup]
      · simp [plookup, hnk, Ne.symm hnk, ih]
    · by_cases hnk : n = k
      · subst hnk
        simp [plookup, hkm]
      · simp [plookup, hkm, hnk, Ne.symm hnk, ih]

/-- Path lookup after setValue: paths are untouched, so the same entry is
found, with its value updated when its name is the written one. -/
theorem findPath_setValue (st : Interface) (m : String) (v : Nat) (p : List Nat) :
    (st.setValue m v).findPath p
      = (st.findPath p).map
          (fun q => if q.1 = m then (q.1, { q.2 with value := v }) else q) := by
  show pfind p (st.points.map _) = Option.map _ (pfind p st.points)
  induction st.points with
  | nil => rfl
  | cons hd tl ih =>
    obtain ⟨k, q⟩ := hd
    by_cases hkm : k = m <;> by_cases hqp : q.path = p <;>
      simp [pfind, hkm, hqp, ih]

/-- C1: for every control point whose interface-declared byte length differs
from the requested type size, a typed read via get, by name or by resolved
path, fails with the SizeMismatch error, leaves the interface unchanged and
leaves the output buffer untouched, so the read is not performed even
partially. -/
theorem get_size_mismatch_blocks (debug : Bool) (st : Interface)
    (name : String) (mib : List Nat) (size uninit : Nat)
    (pt : CtlPoint) (m : String) (pt2 : CtlPoint)
    (h1 : plookup name st.points = some pt) (h2 : pt.vlen ≠ size)
    (h3 : st.findPath mib = some (m, pt2)) (h4 : pt2.vlen ≠ size) :
    get debug st name size uninit = (.err sizeMismatchErr, st) ∧
    get_mib debug st mib size uninit = (.err sizeMismatchErr, st) ∧
    (mallctl st name uninit size none).oldOut = uninit ∧
    (mallctlbymib st mib uninit size none).oldOut = uninit := by
  refine ⟨?_, ?_, ?_, ?_⟩ <;>
    simp [get, get_mib, mallctl, mallctlbymib, Interface.call, h1, h3,
      Ne.symm h2, Ne.symm h4, cvt, sizeMismatchErr, EINVAL]

/-- Witness for C1 on the one-byte tunable of the concrete state, read with
an eight-byte type. -/
theorem get_size_mismatch_blocks_witness :
    plookup "opt.junk" wSt.points = some ⟨[4, 2], 1, 0, .plain⟩ ∧
    (⟨[4, 2], 1, 0, .plain⟩ : CtlPoint).vlen ≠ 8 ∧
    wSt.findPath [4, 2] = some ("opt.junk", ⟨[4, 2], 1, 0, .plain⟩) ∧
    (get false wSt "opt.junk" 8 99 = (.err sizeMismatchErr, wSt) ∧
     get_mib false wSt [4, 2] 8 99 = (.err sizeMismatchErr, wSt) ∧
     (mallctl wSt "opt.junk" 99 8 none).oldOut = 99 ∧
     (mallctlbymib wSt [4, 2] 99 8 none).oldOut = 99) :=
  ⟨by decide, by decide, by decide,
   get_size_mismatch_blocks false wSt "opt.junk" [4, 2] 8 99
     ⟨[4, 2], 1, 0, .plain⟩ "opt.junk" ⟨[4, 2], 1, 0, .plain⟩
     (by decide) (by decide) (by decide) (by decide)⟩

/-- C2 fails on the code: when the reported path length differs from the
buffer capacity, name_to_mib in a build without debug assertions returns
success, with the zero-initialized tail of the buffer kept, instead of
surfacing an error.  Here the path of depth one is resolved into a buffer
of capacity two. -/
theorem resolve_mismatch_not_surfaced_cex :
    (mallctlnametomib cexSt "a" [0, 0]).lenOut ≠ ([0, 0] : List Nat).length ∧
    name_to_mib false cexSt "a" [0, 0] = (.ok [7, 0], cexSt) := by
  decide

/-- C2 amended: name_to_mib compares the reported length with the buffer
capacity only as a debug assertion: with debug assertions the mismatch
aborts, without them the call succeeds and keeps the truncated or padded
buffer. -/
theorem resolve_len_debug_assert_only (st : Interface) (name : String)
    (buf : List Nat) (pt : CtlPoint)
    (h1 : plookup name st.points = some pt) (h2 : pt.path.length ≠ buf.length) :
    name_to_mib true st name buf = (.panicked, st) ∧
    name_to_mib false st name buf
      = (.ok (pt.path.take buf.length ++ buf.drop pt.path.length), st) := by
  constructor
  · simp [name_to_mib, mallctlnametomib, h1, cvt, Ne.symm h2]
  · simp [name_to_mib, mallctlnametomib, h1, cvt]

/-- Witness for the amended C2 on the concrete mismatching state. -/
theorem resolve_len_debug_assert_only_witness :
    plookup "a" cexSt.points = some ⟨[7], 8, 0, .plain⟩ ∧
    (⟨[7], 8, 0, .plain⟩ : CtlPoint).path.length ≠ ([0, 0] : List Nat).length ∧
    (name_to_mib true cexSt "a" [0, 0] = (.panicked, cexSt) ∧
     name_to_mib false cexSt "a" [0, 0] = (.ok [7, 0], cexSt)) :=
  ⟨by decide, by decide,
   by simpa using
     resolve_len_debug_assert_only cexSt "a" [0, 0] ⟨[7], 8, 0, .plain⟩
       (by decide) (by decide)⟩

/-- C3: advance is a get_set_mib of a u64 with input value one against the
resolved epoch path; it returns the counter held before the call, and a
second advance on the resulting state returns its successor. -/
theorem epoch_advance_plus_one (debug : Bool) (st : Interface) (e : Epoch)
    (m : String) (pt : CtlPoint)
    (h1 : st.findPath e.mib = some (m, pt)) (h2 : pt.kind = .epoch)
    (h3 : pt.vlen = u64Size) :
    e.advance debug st = get_set_mib debug st e.mib u64Size 1 ∧
    e.advance debug st = (.ok pt.value, st.setValue m (pt.value + 1)) ∧
    (e.advance debug (e.advance debug st).2).1 = .ok (pt.value + 1) := by
  have ha : e.advance debug st = (.ok pt.value, st.setValue m (pt.value + 1)) :=
    get_set_mib_epoch_ok debug st e.mib u64Size 1 m pt h1 h2 h3 (by decide)
  refine ⟨rfl, ha, ?_⟩
  rw [ha]
  have h1b : (st.setValue m (pt.value + 1)).findPath e.mib
      = some (m, { pt with value := pt.value + 1 }) := by
    rw [findPath_setValue, h1]
    simp
  have hb := get_set_mib_epoch_ok debug (st.setValue m (pt.value + 1)) e.mib u64Size 1
    m { pt with value := pt.value + 1 } h1b (by simpa using h2) (by simpa using h3)
    (by decide)
  show (get_set_mib debug (st.setValue m (pt.value + 1)) e.mib u64Size 1).1 = _
  rw [hb]

/-- Witness for C3 on the concrete state, advancing the epoch from seven. -/
theorem epoch_advance_plus_one_witness :
    wSt.findPath [1] = some ("epoch", ⟨[1], 8, 7, .epoch⟩) ∧
    (⟨[1], 8, 7, .epoch⟩ : CtlPoint).kind = .epoch ∧
    (⟨[1], 8, 7, .epoch⟩ : CtlPoint).vlen = u64Size ∧
    (Epoch.advance ⟨[1]⟩ false wSt = get_set_mib false wSt [1] u64Size 1 ∧
     Epoch.advance ⟨[1]⟩ false wSt = (.ok 7, wSt.setValue "epoch" 8) ∧
     (Epoch.advance ⟨[1]⟩ false (Epoch.advance ⟨[1]⟩ false wSt).2).1 = .ok 8) :=
  ⟨by decide, by decide, by decide,
   by simpa using
     epoch_advance_plus_one false wSt ⟨[1]⟩ "epoch" ⟨[1], 8, 7, .epoch⟩
       (by decide) (by decide) (by decide)⟩

/-- C4 fails on the code for the epoch control point: a successful set of
five returns the previous counter ten, but the subsequent get returns the
bumped counter eleven, not the written five, because the epoch point does
not store the written value. -/
theorem set_then_get_epoch_cex :
    (get_set false cexEpochSt "epoch" u64Size 5).1 = .ok 10 ∧
    (get false (get_set false cexEpochSt "epoch" u64Size 5).2 "epoch" u64Size 0).1
      = .ok 11 ∧
    (get false (get_set false cexEpochSt "epoch" u64Size 5).2 "epoch" u64Size 0).1
      ≠ .ok 5 := by
  decide

/-- C4 amended: for every plain, value-storing control point, get_set
submits the value as both the input and the output buffer of one interface
call, returns the value held immediately before the call, a subsequent get
returns the written value, and a subsequent get_set returns it as the old
value.  The epoch point is excluded: it stores its bumped counter instead
of the written value. -/
theorem set_then_get_plain (debug : Bool) (st : Interface) (name : String)
    (size v w uninit : Nat) (pt : CtlPoint)
    (h1 : plookup name st.points = some pt) (h2 : pt.kind = .plain)
    (h3 : pt.vlen = size) :
    (mallctl st name v size (some (v, size))).oldOut = pt.value ∧
    get_set debug st name size v = (.ok pt.value, st.setValue name v) ∧
    (get debug (st.setValue name v) name size uninit).1 = .ok v ∧
    (get_set debug (st.setValue name v) name size w).1 = .ok v := by
  have hlook : plookup name (st.setValue name v).points = some { pt with value := v } := by
    rw [plookup_setValue, h1]
    simp
  refine ⟨?_, get_set_plain_ok debug st name size v pt h1 h2 h3, ?_, ?_⟩
  · subst h3
    simp [mallctl, Interface.call, h1, h2]
  · rw [get_ok debug (st.setValue name v) name size uninit { pt with value := v } hlook
      (by simpa using h3)]
  · rw [get_set_plain_ok debug (st.setValue name v) name size w { pt with value := v }
      hlook (by simpa using h2) (by simpa using h3)]

/-- Witness for the amended C4 on the plain allocated-statistics point:
write of seventy-seven over one thousand. -/
theorem set_then_get_plain_witness :
    plookup "stats.allocated" wSt.points = some ⟨[2, 5], 8, 1000, .plain⟩ ∧
    (⟨[2, 5], 8, 1000, .plain⟩ : CtlPoint).kind = .plain ∧
    (⟨[2, 5], 8, 1000, .plain⟩ : CtlPoint).vlen = 8 ∧
    ((mallctl wSt "stats.allocated" 77 8 (some (77, 8))).oldOut = 1000 ∧
     get_set false wSt "stats.allocated" 8 77
       = (.ok 1000, wSt.setValue "stats.allocated" 77) ∧
     (get false (wSt.setValue "stats.allocated" 77) "stats.allocated" 8 0).1 = .ok 77 ∧
     (get_set false (wSt.setValue "stats.allocated" 77) "stats.allocated" 8 3).1
       = .ok 77) :=
  ⟨by decide, by decide, by decide,
   by simpa using
     set_then_get_plain false wSt "stats.allocated" 8 77 3 0 ⟨[2, 5], 8, 1000, .plain⟩
       (by decide) (by decide) (by decide)⟩

/-- C5: resolving a name and reading through the resolved path returns the
same result, err or ok, as the read by name on the same interface state. -/
theorem get_name_path_agree (debug : Bool) (st : Interface) (name : String)
    (size uninit : Nat) (pt : CtlPoint) (m : String)
    (h1 : plookup name st.points = some pt)
    (h2 : st.findPath pt.path = some (m, pt)) :
    (name_to_mib debug st name (List.replicate pt.path.length 0)).1 = .ok pt.path ∧
    get_mib debug st pt.path size uninit = get debug st name size uninit := by
  constructor
  · rw [resolve_ok debug st name (List.replicate pt.path.length 0) pt h1 (by simp)]
  · simp [get, get_mib, mallctl, mallctlbymib, Interface.call, h1, h2]

/-- Witness for C5 on the version point of the concrete state. -/
theorem get_name_path_agree_witness :
    plookup "version" wSt.points = some ⟨[0], 8, 0, .plain⟩ ∧
    wSt.findPath [0] = some ("version", ⟨[0], 8, 0, .plain⟩) ∧
    ((name_to_mib false wSt "version" [0]).1 = .ok [0] ∧
     get_mib false wSt [0] 8 5 = get false wSt "version" 8 5) :=
  ⟨by decide, by decide,
   by simpa using
     get_name_path_agree false wSt "version" 8 5 ⟨[0], 8, 0, .plain⟩ "version"
       (by decide) (by decide)⟩

/-- C6: resolving an unknown name fails with NotFound, any nonzero
interface status is mapped by cvt to the raw os error with that code, and a
failed resolve leaves the state unchanged, so resolving a valid name
afterwards still succeeds. -/
theorem resolve_notfound_no_partial_state (debug : Bool) (st : Interface)
    (bad : String) (buf : List Nat) (s : Nat) (good : String) (buf2 : List Nat)
    (pt : CtlPoint)
    (h1 : plookup bad st.points = none) (hs : s ≠ 0)
    (h2 : plookup good st.points = some pt) (h3 : pt.path.length = buf2.length) :
    name_to_mib debug st bad buf = (.err notFoundErr, st) ∧
    cvt s = .error (.os s) ∧
    name_to_mib debug (name_to_mib debug st bad buf).2 good buf2 = (.ok pt.path, st) := by
  have hbad : name_to_mib debug st bad buf = (.err notFoundErr, st) := by
    simp [name_to_mib, mallctlnametomib, h1, cvt, notFoundErr, ENOENT]
  refine ⟨hbad, by simp [cvt, hs], ?_⟩
  rw [hbad]
  exact resolve_ok debug st good buf2 pt h2 h3

/-- Witness for C6: an unknown name, the status thirteen, and the epoch
point resolved afterwards. -/
theorem resolve_notfound_no_partial_state_witness :
    plookup "no.such.control" wSt.points = none ∧
    (13 : Nat) ≠ 0 ∧
    plookup "epoch" wSt.points = some ⟨[1], 8, 7, .epoch⟩ ∧
    (⟨[1], 8, 7, .epoch⟩ : CtlPoint).path.length = ([0] : List Nat).length ∧
    (name_to_mib false wSt "no.such.control" [0, 0] = (.err notFoundErr, wSt) ∧
     cvt 13 = .error (.os 13) ∧
     name_to_mib false (name_to_mib false wSt "no.such.control" [0, 0]).2 "epoch" [0]
       = (.ok [1], wSt)) :=
  ⟨by decide, by decide, by decide, by decide,
   by simpa using
     resolve_notfound_no_partial_state false wSt "no.such.control" [0, 0] 13 "epoch"
       [0] ⟨[1], 8, 7, .epoch⟩ (by decide) (by decide) (by decide) (by decide)⟩

/-- C7: under the modelled auto trait rules the ThreadLocal handle shape, a
struct holding a const raw pointer, is neither Send nor Sync, whatever the
pointed-to type, so the handle cannot cross a thread boundary through the
public surface; and the only operation of the handle is the zero-argument
pure load of the pointed-to cell. -/
theorem threadlocal_not_send_not_sync (t : RustTy) (mem : List Nat)
    (h : thread.ThreadLocal) :
    isSend (ThreadLocalTy t) = false ∧ isSync (ThreadLocalTy t) = false ∧
    h.get mem = mem.getD h.addr 0 :=
  ⟨by simp [isSend, ThreadLocalTy], by simp [isSync, ThreadLocalTy], rfl⟩

/-- C8: get_str reads one pointer-sized value, interprets it as the address
of NUL-terminated interface-owned text and returns that address as the
borrowed view when the bytes are valid UTF-8, and the InvalidData error
when they are not; the path-based variant agrees with the name-based one. -/
theorem get_str_invalid_data (debug : Bool) (st : Interface) (name : String)
    (uninit : Nat) (pt : CtlPoint) (m : String)
    (h1 : plookup name st.points = some pt) (h2 : pt.vlen = ptrSize)
    (h3 : st.findPath pt.path = some (m, pt)) :
    get_str debug st name uninit
      = (if utf8Valid (cstrBytes st.mem pt.value) then (.ok pt.value, st)
         else (.err .invalidData, st)) ∧
    get_str_mib debug st pt.path uninit = get_str debug st name uninit := by
  have hg : get debug st name ptrSize uninit = (.ok pt.value, st) :=
    get_ok debug st name ptrSize uninit pt h1 h2
  have hgm : get_mib debug st pt.path ptrSize uninit = (.ok pt.value, st) :=
    get_mib_ok debug st pt.path ptrSize uninit m pt h3 h2
  constructor
  · simp only [get_str, hg]
  · simp only [get_str, get_str_mib, hg, hgm]

/-- Witness for C8 on the version point: its value addresses the two text
bytes before the first NUL byte of the concrete memory. -/
theorem get_str_invalid_data_witness :
    plookup "version" wSt.points = some ⟨[0], 8, 0, .plain⟩ ∧
    (⟨[0], 8, 0, .plain⟩ : CtlPoint).vlen = ptrSize ∧
    wSt.findPath [0] = some ("version", ⟨[0], 8, 0, .plain⟩) ∧
    (get_str false wSt "version" 9
       = (if utf8Valid (cstrBytes wSt.mem 0) then (.ok 0, wSt)
          else (.err .invalidData, wSt)) ∧
     get_str_mib false wSt [0] 9 = get_str false wSt "version" 9) :=
  ⟨by decide, by decide, by decide,
   by simpa using
     get_str_invalid_data false wSt "version" 9 ⟨[0], 8, 0, .plain⟩ "version"
       (by decide) (by decide) (by decide)⟩

/-- C9: every handle constructor only resolves its name and returns the
interface state unchanged: no control point value is read or written, and
in particular constructing an Epoch does not advance the counter. -/
theorem handle_new_frame (debug : Bool) (st : Interface) :
    (Version.new debug st).2 = st ∧ (Epoch.new debug st).2 = st ∧
    (stats.Allocated.new debug st).2 = st ∧ (thread.AllocatedP.new debug st).2 = st := by
  refine ⟨?_, ?_, ?_, ?_⟩ <;>
    simp [Version.new, Epoch.new, stats.Allocated.new, thread.AllocatedP.new,
      name_to_mib_state]

/-- C10: each convenience function agrees with constructing the handle and
calling it on the same interface state: new returns the resolved path, and
the handle call equals the name-based call, for the epoch, the version
string and the allocated statistic. -/
theorem fn_handle_equivalence (debug : Bool) (st : Interface) (uninit : Nat)
    (ept vpt apt : CtlPoint) (mv ma : String)
    (hE1 : plookup "epoch" st.points = some ept)
    (hE2 : ept.path.length = 1)
    (hE3 : st.findPath ept.path = some ("epoch", ept))
    (hV1 : plookup "version" st.points = some vpt)
    (hV2 : vpt.path.length = 1)
    (hV3 : st.findPath vpt.path = some (mv, vpt))
    (hA1 : plookup "stats.allocated" st.points = some apt)
    (hA2 : apt.path.length = 2)
    (hA3 : st.findPath apt.path = some (ma, apt)) :
    (Epoch.new debug st).1 = .ok ⟨ept.path⟩ ∧
    Epoch.advance ⟨ept.path⟩ debug st = epoch debug st ∧
    (Version.new debug st).1 = .ok ⟨vpt.path⟩ ∧
    Version.get ⟨vpt.path⟩ debug st uninit = version debug st uninit ∧
    (stats.Allocated.new debug st).1 = .ok ⟨apt.path⟩ ∧
    stats.Allocated.get ⟨apt.path⟩ debug st uninit
      = stats.allocated debug st uninit := by
  have hREpoch := resolve_ok debug st EPOCH (List.replicate 1 0) ept hE1 (by simpa using hE2)
  have hRVersion := resolve_ok debug st VERSION (List.replicate 1 0) vpt hV1 (by simpa using hV2)
  have hRAlloc := resolve_ok debug st ALLOCATED (List.replicate 2 0) apt hA1 (by simpa using hA2)
  have hgv : get_mib debug st vpt.path ptrSize uninit = get debug st VERSION ptrSize uninit := by
    simp [get, get_mib, mallctl, mallctlbymib, Interface.call, VERSION, hV1, hV3]
  simp only [List.replicate_succ, List.replicate_zero] at hREpoch hRVersion hRAlloc
  refine ⟨?_, ?_, ?_, ?_, ?_, ?_⟩
  · simp [Epoch.new, hREpoch, mapRR]
  · simp [Epoch.advance, epoch, get_set, get_set_mib, mallctl, mallctlbymib,
      Interface.call, EPOCH, hE1, hE3]
  · simp [Version.new, hRVersion, mapRR]
  · simp only [Version.get, version, get_str, get_str_mib, hgv]
  · simp [stats.Allocated.new, hRAlloc, mapRR]
  · simp [stats.Allocated.get, stats.allocated, get, get_mib, mallctl, mallctlbymib,
      Interface.call, ALLOCATED, hA1, hA3]

/-- Witness for C10 on the concrete state holding all three points. -/
theorem fn_handle_equivalence_witness :
    plookup "epoch" wSt.points = some ⟨[1], 8, 7, .epoch⟩ ∧
    wSt.findPath [1] = some ("epoch", ⟨[1], 8, 7, .epoch⟩) ∧
    plookup "version" wSt.points = some ⟨[0], 8, 0, .plain⟩ ∧
    wSt.findPath [0] = some ("version", ⟨[0], 8, 0, .plain⟩) ∧
    plookup "stats.allocated" wSt.points = some ⟨[2, 5], 8, 1000, .plain⟩ ∧
    wSt.findPath [2, 5] = some ("stats.allocated", ⟨[2, 5], 8, 1000, .plain⟩) ∧
    ((Epoch.new false wSt).1 = .ok ⟨[1]⟩ ∧
     Epoch.advance ⟨[1]⟩ false wSt = epoch false wSt ∧
     (Version.new false wSt).1 = .ok ⟨[0]⟩ ∧
     Version.get ⟨[0]⟩ false wSt 9 = version false wSt 9 ∧
     (stats.Allocated.new false wSt).1 = .ok ⟨[2, 5]⟩ ∧
     stats.Allocated.get ⟨[2, 5]⟩ false wSt 9 = stats.allocated false wSt 9) :=
  ⟨by decide, by decide, by decide, by decide, by decide, by decide,
   by simpa using
     fn_handle_equivalence false wSt 9 ⟨[1], 8, 7, .epoch⟩ ⟨[0], 8, 0, .plain⟩
       ⟨[2, 5], 8, 1000, .plain⟩ "version" "stats.allocated"
       (by decide) (by decide) (by decide) (by decide) (by decide) (by decide)
       (by decide) (by decide) (by decide)⟩

end JeCtl
